import Mathlib

/-!
Verification of the MCP Database Server gateway
(`src/mcp_database_server.py`) via a shallow embedding in Lean 4.

Python dynamic values (JSON-like request fields, rows, documents) are
embedded as the inductive type `Val`.  The external drivers (sqlite3,
psycopg2, pymysql, pymongo, redis) are out of scope for the repository
and are modelled as oracles (`DbConn`, `MongoWorld`, `RedisState`)
describing what each driver call returns or whether it raises; the
gateway's own logic — parsing, routing, read/write classification,
cache check/store, envelope formatting, exception catching — is
translated line by line from the source.  A Python exception is an
`Except.error` carrying the human-readable message `str(e)`; the
`try/except` in `receive_client_request` is the `match` that converts
it to an error envelope.  JSON (de)serialization of cached values
(`json.dumps`/`json.loads`) is the identity on the `Val` domain, so the
redis store holds `Val` directly; `json.dumps` of any value is a
non-empty string, so the `if cached_data:` truthiness test on the raw
string always passes for values in this domain.
-/

set_option autoImplicit false

namespace MCPDB

/-- Embedded Python/JSON value. -/
inductive Val where
  | null
  | bool (b : Bool)
  | int (n : Int)
  | str (s : String)
  | list (xs : List Val)
  | obj (fields : List (String × Val))

/-- Python truthiness (`if v:`) for embedded values. -/
def isTruthy : Val → Bool
  | .null => false
  | .bool b => b
  | .int n => n != 0
  | .str s => s != ""
  | .list xs => !xs.isEmpty
  | .obj fs => !fs.isEmpty

/-- First-match lookup in a string-keyed association list (Python dict read). -/
def assocFind : List (String × Val) → String → Option Val
  | [], _ => none
  | (k, v) :: rest, key => if k = key then some v else assocFind rest key

/-- Update-or-append in a string-keyed association list (Python dict write / redis setex). -/
def assocSet : List (String × Val) → String → Val → List (String × Val)
  | [], key, v => [(key, v)]
  | (k, w) :: rest, key, v =>
      if k = key then (key, v) :: rest else (k, w) :: assocSet rest key v

/-- Python `d.get(key, default)`: the default applies only when the key is
absent; a present `null` value is returned as-is. -/
def rawGet (d : List (String × Val)) (key : String) (dflt : Val) : Val :=
  (assocFind d key).getD dflt

/-- Python `str.lower()` (the source only lower-cases ASCII keywords and
backend names, so the ASCII `Char.toLower` is exact on this domain). -/
def strLower (s : String) : String :=
  ⟨s.data.map Char.toLower⟩

/-- Character-list core of Python `str.startswith`. -/
def charsStarts : List Char → List Char → Bool
  | _, [] => true
  | [], _ :: _ => false
  | c :: cs, p :: ps => c = p && charsStarts cs ps

/-- Python `s.startswith(p)`. -/
def strStarts (s p : String) : Bool :=
  charsStarts s.data p.data

/-- Python `str(v)` for embedded values, used for `str(e)`-style message
formatting (f-strings and `str(ObjectId)`).  Containers are abbreviated:
the source only applies it to scalar identifiers and operation names. -/
def pyStr : Val → String
  | .null => "None"
  | .bool b => if b then "True" else "False"
  | .int n => toString n
  | .str s => s
  | .list _ => "[...]"
  | .obj _ => "{...}"

/-- `v == "lit"` in Python: true exactly when `v` is that string. -/
def valIsStr (v : Val) (s : String) : Bool :=
  match v with
  | .str t => t = s
  | _ => false

/-- The dataclass `DatabaseRequest`.  `db_type` is lower-cased at parse
time (so it is a `String`); the remaining fields keep their raw dynamic
values, since the source calls methods on them only later (and raises
`AttributeError` when the value has the wrong type). -/
structure DatabaseRequest where
  db_type : String
  operation : Val
  query : Val
  parameters : Val
  cache_key : Val

/-- `_parse_request`: `request_data.get('db_type', '').lower()` raises
`AttributeError` when the `db_type` value is not a string; every other
field is stored without defaulting beyond `dict.get`. -/
def parse_request (raw : List (String × Val)) : Except String DatabaseRequest :=
  match rawGet raw "db_type" (.str "") with
  | .str s =>
      .ok { db_type := strLower s
            operation := rawGet raw "operation" (.str "")
            query := rawGet raw "query" .null
            parameters := rawGet raw "parameters" (.obj [])
            cache_key := rawGet raw "cache_key" .null }
  | v => .error ("AttributeError: " ++ pyStr v ++ " object has no attribute lower")

/-- The line shared by the three relational handlers:
`request.operation.lower() == 'select' or request.query.lower().startswith('select')`.
Short-circuit evaluation: the query text is only touched (and can only
raise `AttributeError`, e.g. on a `None` query) when the operation test
is false. -/
def relationalIsRead (op q : Val) : Except String Bool :=
  match op with
  | .str s =>
      if strLower s = "select" then .ok true
      else
        match q with
        | .str qs => .ok (strStarts (strLower qs) "select")
        | v => .error ("AttributeError: " ++ pyStr v ++ " object has no attribute lower")
  | v => .error ("AttributeError: " ++ pyStr v ++ " object has no attribute lower")

/-- Per-backend configuration (`self.config`): the `enabled` flags the
handlers consult.  Connection parameters are consumed only by the
external drivers and are folded into the oracles. -/
structure Config where
  sqliteEnabled : Bool
  postgresqlEnabled : Bool
  mysqlEnabled : Bool
  mongodbEnabled : Bool

/-- Module-level import-guard flags (`POSTGRESQL_AVAILABLE` etc.). -/
structure Libs where
  postgresqlAvailable : Bool
  realDictCursorAvailable : Bool
  mysqlAvailable : Bool
  mysqlDriverIsPymysql : Bool
  mongodbAvailable : Bool

/-- Oracle for one relational driver connection: whether connecting
(including `os.makedirs`) or `cursor.execute` raises, and otherwise the
fetched rows — already converted to column-keyed mappings, as the
handlers do with `dict(row)` / `dict(zip(columns, row))` — and the
cursor's `rowcount` / `lastrowid`. -/
structure DbConn where
  connectFail : Option String
  execFail : Option String
  rows : List Val
  rowcount : Int
  lastrowid : Int

/-- `_handle_sqlite`.  The enabled check raises `RuntimeError`; the
read/write classification picks which execute/result branch runs. -/
def handle_sqlite (cfg : Config) (db : DbConn) (req : DatabaseRequest) :
    Except String Val :=
  if !cfg.sqliteEnabled then .error "SQLite not enabled"
  else
    match db.connectFail with
    | some e => .error e
    | none =>
      match relationalIsRead req.operation req.query with
      | .error e => .error e
      | .ok true =>
        match db.execFail with
        | some e => .error e
        | none => .ok (.list db.rows)
      | .ok false =>
        match db.execFail with
        | some e => .error e
        | none => .ok (.obj [("affected_rows", .int db.rowcount),
                             ("lastrowid", .int db.lastrowid)])

/-- `_handle_postgresql`.  The `'psycopg2' not in globals()` check is
unreachable once `POSTGRESQL_AVAILABLE` holds (the import succeeded) and
is therefore not modelled separately.  `cursor.execute` runs before the
read/write classification in this handler. -/
def handle_postgresql (libs : Libs) (cfg : Config) (db : DbConn)
    (req : DatabaseRequest) : Except String Val :=
  if !(libs.postgresqlAvailable && cfg.postgresqlEnabled) then
    .error "PostgreSQL not available or not enabled"
  else if !libs.realDictCursorAvailable then
    .error "psycopg2.extras.RealDictCursor is not available. Please install the correct psycopg2 version."
  else
    match db.connectFail with
    | some e => .error e
    | none =>
      match db.execFail with
      | some e => .error e
      | none =>
        match relationalIsRead req.operation req.query with
        | .error e => .error e
        | .ok true => .ok (.list db.rows)
        | .ok false => .ok (.obj [("affected_rows", .int db.rowcount)])

/-- `_handle_mysql`.  `MYSQL_AVAILABLE` implies the pymysql import
succeeded, so the inner `import pymysql` cannot fail; the driver check
mirrors `MYSQL_DRIVER == 'pymysql'`. -/
def handle_mysql (libs : Libs) (cfg : Config) (db : DbConn)
    (req : DatabaseRequest) : Except String Val :=
  if !(libs.mysqlAvailable && cfg.mysqlEnabled) then
    .error "MySQL not available or not enabled"
  else if !libs.mysqlDriverIsPymysql then
    .error "No suitable MySQL driver found. Only 'pymysql' is supported in this configuration."
  else
    match db.connectFail with
    | some e => .error e
    | none =>
      match db.execFail with
      | some e => .error e
      | none =>
        match relationalIsRead req.operation req.query with
        | .error e => .error e
        | .ok true => .ok (.list db.rows)
        | .ok false => .ok (.obj [("affected_rows", .int db.rowcount)])

/-- `parameters.get(key, default)` in the MongoDB handler: raises
`AttributeError` when `parameters` is not a mapping (e.g. `None`). -/
def paramsGet (params : Val) (key : String) (dflt : Val) : Except String Val :=
  match params with
  | .obj fs => .ok (rawGet fs key dflt)
  | v => .error ("AttributeError: " ++ pyStr v ++ " object has no attribute get")

/-- `if '_id' in doc: doc['_id'] = str(doc['_id'])` applied to one
returned document. -/
def stringifyId : Val → Val
  | .obj fs => .obj (fs.map fun p => if p.1 = "_id" then (p.1, .str (pyStr p.2)) else p)
  | v => v

/-- Oracle for the MongoDB driver: whether connecting raises, the
documents `collection.find(query)` yields for a given collection name
and filter, and the driver-reported identifiers/counts for mutations
(already in the string form `str(...)` produces for `inserted_id`). -/
structure MongoWorld where
  connectFail : Option String
  find : Val → Val → List Val
  insertedId : String
  matchedCount : Int
  modifiedCount : Int
  deletedCount : Int

/-- `_handle_mongodb`.  Operation dispatch is by case-sensitive string
equality (`request.operation == 'find'` etc.); the collection name is
`parameters.get('collection', 'default')`. -/
def handle_mongodb (libs : Libs) (cfg : Config) (w : MongoWorld)
    (req : DatabaseRequest) : Except String Val :=
  if !(libs.mongodbAvailable && cfg.mongodbEnabled) then
    .error "MongoDB not available or not enabled"
  else
    match w.connectFail with
    | some e => .error e
    | none =>
      if valIsStr req.operation "find" then
        match paramsGet req.parameters "collection" (.str "default") with
        | .error e => .error e
        | .ok coll =>
          match paramsGet req.parameters "query" (.obj []) with
          | .error e => .error e
          | .ok filt => .ok (.list ((w.find coll filt).map stringifyId))
      else if valIsStr req.operation "insert" then
        match paramsGet req.parameters "collection" (.str "default") with
        | .error e => .error e
        | .ok _ =>
          match paramsGet req.parameters "document" (.obj []) with
          | .error e => .error e
          | .ok _ => .ok (.obj [("inserted_id", .str w.insertedId)])
      else if valIsStr req.operation "update" then
        match paramsGet req.parameters "collection" (.str "default") with
        | .error e => .error e
        | .ok _ =>
          match paramsGet req.parameters "query" (.obj []) with
          | .error e => .error e
          | .ok _ =>
            match paramsGet req.parameters "update" (.obj []) with
            | .error e => .error e
            | .ok _ => .ok (.obj [("matched_count", .int w.matchedCount),
                                  ("modified_count", .int w.modifiedCount)])
      else if valIsStr req.operation "delete" then
        match paramsGet req.parameters "collection" (.str "default") with
        | .error e => .error e
        | .ok _ =>
          match paramsGet req.parameters "query" (.obj []) with
          | .error e => .error e
          | .ok _ => .ok (.obj [("deleted_count", .int w.deletedCount)])
      else .error ("Unsupported MongoDB operation: " ++ pyStr req.operation)

/-- `self.redis_client` and the reachable store behind it:
`absent` = client is `None` (disabled, or ping failed at construction);
`unreachable` = client object exists but every get/setex raises;
`reachable store` = operations succeed against `store`. -/
inductive RedisState where
  | absent
  | unreachable
  | reachable (store : List (String × Val))

/-- `if self.redis_client:` — the client object exists. -/
def redisPresent : RedisState → Bool
  | .absent => false
  | _ => true

/-- `_check_cache`: a raised get is caught (logged) and becomes a miss;
a found entry is deserialized and returned whatever its truthiness.  A
non-string key makes the driver call fail, which the same except-block
turns into a miss. -/
def check_cache (rs : RedisState) (key : Val) : Option Val :=
  match rs with
  | .absent => none
  | .unreachable => none
  | .reachable store =>
    match key with
    | .str k => assocFind store k
    | _ => none

/-- `_store_in_cache`: a raised setex is caught (logged) and swallowed,
leaving the store untouched. -/
def store_in_cache (rs : RedisState) (key : Val) (v : Val) : RedisState :=
  match rs with
  | .absent => rs
  | .unreachable => rs
  | .reachable store =>
    match key with
    | .str k => .reachable (assocSet store k v)
    | _ => rs

/-- The whole server: configuration, import flags, cache state, one
driver oracle per backend, and the source file's mtime (the file is not
modified during the process, so `str(Path(__file__).stat().st_mtime)`
is this constant). -/
structure Server where
  config : Config
  libs : Libs
  redis : RedisState
  sqliteDb : DbConn
  pgDb : DbConn
  myDb : DbConn
  mongo : MongoWorld
  fileMtime : String

/-- `_route_request`: fixed dispatch table on the (lower-cased)
`db_type`, raising `ValueError` on anything else. -/
def route_request (s : Server) (req : DatabaseRequest) : Except String Val :=
  if req.db_type = "sqlite" then handle_sqlite s.config s.sqliteDb req
  else if req.db_type = "postgresql" then handle_postgresql s.libs s.config s.pgDb req
  else if req.db_type = "mysql" then handle_mysql s.libs s.config s.myDb req
  else if req.db_type = "mongodb" then handle_mongodb s.libs s.config s.mongo req
  else .error ("Unsupported database type: " ++ req.db_type)

/-- The response envelope.  `_format_response` sets `data`/`from_cache`
and no `error` key; `_format_error_response` sets `error` and neither
`data` nor `from_cache`. -/
structure Response where
  status : String
  data : Option Val
  error : Option String
  from_cache : Option Bool
  timestamp : String

/-- `_format_response`. -/
def format_response (mtime : String) (data : Val) (fromCache : Bool) : Response :=
  { status := "success", data := some data, error := none,
    from_cache := some fromCache, timestamp := mtime }

/-- `_format_error_response`. -/
def format_error_response (mtime : String) (msg : String) : Response :=
  { status := "error", data := none, error := some msg,
    from_cache := none, timestamp := mtime }

/-- The cache-lookup step of `receive_client_request`:
`if request.cache_key and self.redis_client:` guards the lookup, and the
looked-up value short-circuits the pipeline only when it is truthy
(`if cached_result:`). -/
def cache_hit (s : Server) (req : DatabaseRequest) : Option Val :=
  if isTruthy req.cache_key && redisPresent s.redis then
    match check_cache s.redis req.cache_key with
    | some v => if isTruthy v then some v else none
    | none => none
  else none

/-- `receive_client_request`: parse, cache check, route, conditional
cache store, envelope.  The surrounding `try/except Exception` is the
two `.error` branches; the returned `Server` carries the possibly
updated cache state. -/
def receive_client_request (s : Server) (raw : List (String × Val)) :
    Response × Server :=
  match parse_request raw with
  | .error e => (format_error_response s.fileMtime e, s)
  | .ok req =>
    match cache_hit s req with
    | some v => (format_response s.fileMtime v true, s)
    | none =>
      match route_request s req with
      | .error e => (format_error_response s.fileMtime e, s)
      | .ok result =>
        let s' :=
          if isTruthy req.cache_key && redisPresent s.redis && isTruthy result then
            { s with redis := store_in_cache s.redis req.cache_key result }
          else s
        (format_response s'.fileMtime result false, s')

/-- `n + 1` successive calls of `receive_client_request` with the same
raw request, threading the server state. -/
def receive_iter (raw : List (String × Val)) : Nat → Server → Response × Server
  | 0, s => receive_client_request s raw
  | n + 1, s => receive_iter raw n (receive_client_request s raw).2

end MCPDB

namespace MCPDB

/-- Configuration with every backend enabled. -/
def allOnConfig : Config :=
  { sqliteEnabled := true, postgresqlEnabled := true,
    mysqlEnabled := true, mongodbEnabled := true }

/-- All client libraries importable. -/
def allLibs : Libs :=
  { postgresqlAvailable := true, realDictCursorAvailable := true,
    mysqlAvailable := true, mysqlDriverIsPymysql := true,
    mongodbAvailable := true }

/-- A healthy relational connection returning the given rows. -/
def okDb (rows : List Val) : DbConn :=
  { connectFail := none, execFail := none, rows := rows,
    rowcount := 1, lastrowid := 7 }

/-- A healthy MongoDB connection over an empty database. -/
def okMongo : MongoWorld :=
  { connectFail := none, find := fun _ _ => [], insertedId := "id1",
    matchedCount := 0, modifiedCount := 0, deletedCount := 0 }

/-- A server with the given cache state and sqlite result rows. -/
def mkServer (redis : RedisState) (rows : List Val) : Server :=
  { config := allOnConfig, libs := allLibs, redis := redis,
    sqliteDb := okDb rows, pgDb := okDb rows, myDb := okDb rows,
    mongo := okMongo, fileMtime := "1700000000.0" }

/-- A read request against sqlite carrying cache key `k`. -/
def sqliteReadRaw (k : String) : List (String × Val) :=
  [("db_type", .str "sqlite"), ("operation", .str "select"),
   ("query", .str "SELECT * FROM t"), ("cache_key", .str k)]

/-- Writing a key and reading it back finds the written value. -/
theorem assocFind_assocSet_self (st : List (String × Val)) (k : String) (v : Val) :
    assocFind (assocSet st k v) k = some v := by
  induction st with
  | nil => simp [assocSet, assocFind]
  | cons p rest ih =>
    by_cases h : p.1 = k
    · simp [assocSet, assocFind, h]
    · simpa [assocSet, assocFind, h] using ih

/-- Every envelope carries the source file's mtime as its timestamp. -/
theorem receive_timestamp_const (s : Server) (raw : List (String × Val)) :
    (receive_client_request s raw).1.timestamp = s.fileMtime := by
  unfold receive_client_request
  split
  · rfl
  · split
    · rfl
    · split
      · rfl
      · dsimp only
        split <;> rfl

/-- A call never changes the recorded source-file mtime. -/
theorem receive_preserves_mtime (s : Server) (raw : List (String × Val)) :
    (receive_client_request s raw).2.fileMtime = s.fileMtime := by
  unfold receive_client_request
  split
  · rfl
  · split
    · rfl
    · split
      · rfl
      · dsimp only
        split <;> rfl

/-- C1: for every server state and raw request mapping,
`receive_client_request` returns a response envelope whose status is
"success" (with data and a from_cache flag, no error field) or "error"
(with a human-readable message, no data); no failure anywhere in the
pipeline escapes the gateway, since every parse, route and handler
exception is converted into the error envelope. -/
theorem receive_always_returns_envelope (s : Server) (raw : List (String × Val)) :
    ((receive_client_request s raw).1.status = "success" ∧
      (receive_client_request s raw).1.error = none ∧
      (∃ d b, (receive_client_request s raw).1.data = some d ∧
              (receive_client_request s raw).1.from_cache = some b)) ∨
    ((receive_client_request s raw).1.status = "error" ∧
      (receive_client_request s raw).1.data = none ∧
      (∃ m, (receive_client_request s raw).1.error = some m)) := by
  unfold receive_client_request
  split
  · exact Or.inr ⟨rfl, rfl, _, rfl⟩
  · split
    · exact Or.inl ⟨rfl, rfl, _, true, rfl, rfl⟩
    · split
      · exact Or.inr ⟨rfl, rfl, _, rfl⟩
      · exact Or.inl ⟨rfl, rfl, _, false, rfl, rfl⟩

/-- C10: the timestamp of every response envelope equals the recorded
source-file modification time, a per-process constant: any two calls on
the same server — whatever their requests or outcomes, and whether made
from the same state or sequentially — carry equal timestamps. -/
theorem timestamp_process_constant (s : Server)
    (raw1 raw2 : List (String × Val)) :
    (receive_client_request s raw1).1.timestamp = s.fileMtime ∧
    (receive_client_request s raw1).1.timestamp
      = (receive_client_request s raw2).1.timestamp ∧
    (receive_client_request (receive_client_request s raw1).2 raw2).1.timestamp
      = (receive_client_request s raw1).1.timestamp := by
  refine ⟨receive_timestamp_const s raw1, ?_, ?_⟩
  · rw [receive_timestamp_const, receive_timestamp_const]
  · rw [receive_timestamp_const, receive_timestamp_const,
        receive_preserves_mtime]

/-- C2 counterexample: a read request against sqlite over an empty table
(backend result the empty row list), with cache key "k" and a reachable,
initially empty cache: the first response has from_cache false, yet the
identical second request again yields from_cache false, not true — the
falsy result was never written to the cache. -/
theorem cache_idempotence_counterexample :
    (receive_client_request (mkServer (.reachable []) []) (sqliteReadRaw "k")).1.status
        = "success" ∧
    (receive_client_request (mkServer (.reachable []) []) (sqliteReadRaw "k")).1.from_cache
        = some false ∧
    (receive_client_request
        (receive_client_request (mkServer (.reachable []) []) (sqliteReadRaw "k")).2
        (sqliteReadRaw "k")).1.from_cache = some false ∧
    (receive_client_request
        (receive_client_request (mkServer (.reachable []) []) (sqliteReadRaw "k")).2
        (sqliteReadRaw "k")).1.from_cache ≠ some true :=
  ⟨rfl, rfl, rfl, fun h => nomatch h⟩

/-- C4 counterexample: a request whose db_type "nosql" is unsupported,
but whose cache_key "k" finds a truthy cached value, is answered from
the cache with status "success" — the cache check precedes routing, so
the unsupported type is never rejected. -/
theorem unsupported_db_type_counterexample :
    parse_request [("db_type", .str "nosql"), ("cache_key", .str "k")]
      = .ok ⟨"nosql", .str "", .null, .obj [], .str "k"⟩ ∧
    (receive_client_request (mkServer (.reachable [("k", .str "cached")]) [])
        [("db_type", .str "nosql"), ("cache_key", .str "k")]).1.status = "success" ∧
    (receive_client_request (mkServer (.reachable [("k", .str "cached")]) [])
        [("db_type", .str "nosql"), ("cache_key", .str "k")]).1.from_cache = some true :=
  ⟨rfl, rfl, rfl⟩

/-- C5 counterexample: a sqlite request with the sqlite backend disabled
in configuration, but whose cache_key "k" finds a truthy cached value,
is answered from the cache with status "success" instead of the
unavailability error. -/
theorem backend_unavailable_counterexample :
    (receive_client_request
        { mkServer (.reachable [("k", .str "cached")]) [] with
            config := { allOnConfig with sqliteEnabled := false } }
        (sqliteReadRaw "k")).1.status = "success" ∧
    (receive_client_request
        { mkServer (.reachable [("k", .str "cached")]) [] with
            config := { allOnConfig with sqliteEnabled := false } }
        (sqliteReadRaw "k")).1.from_cache = some true :=
  ⟨rfl, rfl⟩

/-- C7 counterexample: the MongoDB handler compares the operation
case-sensitively (`request.operation == 'find'`), so operation "FIND"
is not classified as a read: it falls through to the unsupported-
operation error even with the backend enabled and healthy. -/
theorem mongodb_find_case_counterexample :
    handle_mongodb allLibs allOnConfig okMongo
        ⟨"mongodb", .str "FIND", .null, .obj [], .null⟩
      = .error "Unsupported MongoDB operation: FIND" := rfl

/-- C8 counterexample: a raw request whose "parameters" field is present
but null parses to a request whose parameters field is null, not the
empty mapping — the `dict.get` default applies only to an absent key. -/
theorem parameters_null_counterexample :
    parse_request [("db_type", .str "sqlite"), ("parameters", .null)]
      = .ok ⟨"sqlite", .str "", .null, .null, .null⟩ ∧
    (Val.null ≠ Val.obj []) :=
  ⟨rfl, fun h => nomatch h⟩

/-- C3: for every request to a relational backend (sqlite, postgresql,
mysql) with string operation and query fields, an enabled backend and a
healthy connection: the handler returns the fetched rows (the read path)
exactly when the lower-cased operation equals "select" or the lower-cased
query text starts with "select"; in every other case it returns the
mutation-summary mapping (the write path, with lastrowid only for
sqlite). -/
theorem relational_read_write_classification
    (op q : String) (cfg : Config) (libs : Libs) (db : DbConn)
    (req : DatabaseRequest)
    (hop : req.operation = .str op) (hq : req.query = .str q)
    (hsq : cfg.sqliteEnabled = true)
    (hpg : (libs.postgresqlAvailable && cfg.postgresqlEnabled) = true)
    (hrd : libs.realDictCursorAvailable = true)
    (hmy : (libs.mysqlAvailable && cfg.mysqlEnabled) = true)
    (hdrv : libs.mysqlDriverIsPymysql = true)
    (hc : db.connectFail = none) (he : db.execFail = none) :
    (handle_sqlite cfg db req = .ok (.list db.rows)
        ↔ (strLower op = "select" ∨ strStarts (strLower q) "select" = true)) ∧
    (¬(strLower op = "select" ∨ strStarts (strLower q) "select" = true) →
        handle_sqlite cfg db req
          = .ok (.obj [("affected_rows", .int db.rowcount),
                       ("lastrowid", .int db.lastrowid)])) ∧
    (handle_postgresql libs cfg db req = .ok (.list db.rows)
        ↔ (strLower op = "select" ∨ strStarts (strLower q) "select" = true)) ∧
    (¬(strLower op = "select" ∨ strStarts (strLower q) "select" = true) →
        handle_postgresql libs cfg db req
          = .ok (.obj [("affected_rows", .int db.rowcount)])) ∧
    (handle_mysql libs cfg db req = .ok (.list db.rows)
        ↔ (strLower op = "select" ∨ strStarts (strLower q) "select" = true)) ∧
    (¬(strLower op = "select" ∨ strStarts (strLower q) "select" = true) →
        handle_mysql libs cfg db req
          = .ok (.obj [("affected_rows", .int db.rowcount)])) := by
  by_cases hsel : strLower op = "select"
  · have hrel : relationalIsRead req.operation req.query = .ok true := by
      rw [hop]; simp [relationalIsRead, hsel]
    refine ⟨?_, ?_, ?_, ?_, ?_, ?_⟩ <;>
      simp [handle_sqlite, handle_postgresql, handle_mysql,
            hsq, hpg, hrd, hmy, hdrv, hc, he, hrel, hsel]
  · have hrel : relationalIsRead req.operation req.query
        = .ok (strStarts (strLower q) "select") := by
      rw [hop, hq]; simp [relationalIsRead, hsel]
    cases hst : strStarts (strLower q) "select" with
    | true =>
      rw [hst] at hrel
      refine ⟨?_, ?_, ?_, ?_, ?_, ?_⟩ <;>
        simp [handle_sqlite, handle_postgresql, handle_mysql,
              hsq, hpg, hrd, hmy, hdrv, hc, he, hrel, hst]
    | false =>
      rw [hst] at hrel
      refine ⟨?_, ?_, ?_, ?_, ?_, ?_⟩ <;>
        simp [handle_sqlite, handle_postgresql, handle_mysql,
              hsq, hpg, hrd, hmy, hdrv, hc, he, hrel, hsel, hst]

/-- Witness for C3: a sqlite request with operation "insert" and an
INSERT query takes the write path and returns the mutation summary. -/
theorem relational_read_write_classification_witness :
    handle_sqlite allOnConfig (okDb [])
        ⟨"sqlite", .str "insert", .str "INSERT INTO t VALUES (1)", .obj [], .null⟩
      = .ok (.obj [("affected_rows", .int 1), ("lastrowid", .int 7)]) :=
  (relational_read_write_classification "insert" "INSERT INTO t VALUES (1)"
      allOnConfig allLibs (okDb [])
      ⟨"sqlite", .str "insert", .str "INSERT INTO t VALUES (1)", .obj [], .null⟩
      rfl rfl rfl rfl rfl rfl rfl rfl rfl).2.1 (by decide)

/-- C4 (amended): a request whose lower-cased db_type is none of the four
supported backends is answered with status "error" and the message
"Unsupported database type: <type>", provided the pipeline is not
short-circuited by a truthy cache hit; and the error is returned as an
envelope, never raised. -/
theorem unsupported_db_type_error (s : Server) (raw : List (String × Val))
    (req : DatabaseRequest)
    (hp : parse_request raw = .ok req)
    (hnc : cache_hit s req = none)
    (h1 : req.db_type ≠ "sqlite") (h2 : req.db_type ≠ "postgresql")
    (h3 : req.db_type ≠ "mysql") (h4 : req.db_type ≠ "mongodb") :
    (receive_client_request s raw).1
      = format_error_response s.fileMtime
          ("Unsupported database type: " ++ req.db_type) := by
  have hroute : route_request s req
      = .error ("Unsupported database type: " ++ req.db_type) := by
    unfold route_request
    rw [if_neg h1, if_neg h2, if_neg h3, if_neg h4]
  simp only [receive_client_request, hp, hnc, hroute]

/-- Witness for C4 (amended): db_type "NoSQL" (lower-cased "nosql") with
no cache configured yields the unsupported-type error envelope. -/
theorem unsupported_db_type_error_witness :
    (receive_client_request (mkServer .absent []) [("db_type", .str "NoSQL")]).1
      = format_error_response "1700000000.0" "Unsupported database type: nosql" :=
  unsupported_db_type_error (mkServer .absent []) [("db_type", .str "NoSQL")]
    ⟨"nosql", .str "", .null, .obj [], .null⟩ rfl rfl
    (by decide) (by decide) (by decide) (by decide)

/-- C5 (amended): a request naming a supported backend whose backend is
disabled in configuration or whose client library is absent is answered
with status "error" and that backend's unavailability message, provided
the pipeline is not short-circuited by a truthy cache hit; the error is
returned as an envelope, never raised. -/
theorem backend_unavailable_error (s : Server) (raw : List (String × Val))
    (req : DatabaseRequest)
    (hp : parse_request raw = .ok req)
    (hnc : cache_hit s req = none) :
    (req.db_type = "sqlite" → s.config.sqliteEnabled = false →
        (receive_client_request s raw).1
          = format_error_response s.fileMtime "SQLite not enabled") ∧
    (req.db_type = "postgresql" →
        (s.libs.postgresqlAvailable && s.config.postgresqlEnabled) = false →
        (receive_client_request s raw).1
          = format_error_response s.fileMtime
              "PostgreSQL not available or not enabled") ∧
    (req.db_type = "mysql" →
        (s.libs.mysqlAvailable && s.config.mysqlEnabled) = false →
        (receive_client_request s raw).1
          = format_error_response s.fileMtime
              "MySQL not available or not enabled") ∧
    (req.db_type = "mongodb" →
        (s.libs.mongodbAvailable && s.config.mongodbEnabled) = false →
        (receive_client_request s raw).1
          = format_error_response s.fileMtime
              "MongoDB not available or not enabled") := by
  refine ⟨?_, ?_, ?_, ?_⟩ <;> intro hdb hflag
  · have hroute : route_request s req = .error "SQLite not enabled" := by
      unfold route_request
      rw [hdb]
      simp [handle_sqlite, hflag]
    simp only [receive_client_request, hp, hnc, hroute]
  · have hroute : route_request s req
        = .error "PostgreSQL not available or not enabled" := by
      unfold route_request
      rw [hdb]
      simp [handle_postgresql, hflag]
    simp only [receive_client_request, hp, hnc, hroute]
  · have hroute : route_request s req
        = .error "MySQL not available or not enabled" := by
      unfold route_request
      rw [hdb]
      simp [handle_mysql, hflag]
    simp only [receive_client_request, hp, hnc, hroute]
  · have hroute : route_request s req
        = .error "MongoDB not available or not enabled" := by
      unfold route_request
      rw [hdb]
      simp [handle_mongodb, hflag]
    simp only [receive_client_request, hp, hnc, hroute]

/-- Witness for C5 (amended): a sqlite request with sqlite disabled and
no cache yields the "SQLite not enabled" error envelope. -/
theorem backend_unavailable_error_witness :
    (receive_client_request
        { mkServer .absent [] with
            config := { allOnConfig with sqliteEnabled := false } }
        [("db_type", .str "sqlite")]).1
      = format_error_response "1700000000.0" "SQLite not enabled" :=
  (backend_unavailable_error
      { mkServer .absent [] with
          config := { allOnConfig with sqliteEnabled := false } }
      [("db_type", .str "sqlite")]
      ⟨"sqlite", .str "", .null, .obj [], .null⟩ rfl rfl).1 rfl rfl

/-- C6: with a truthy cache_key and an unreachable cache store (every
get and setex raises), a request whose backend handler succeeds still
returns status "success" with from_cache false and the backend's data:
the lookup failure is treated as a miss and the store failure is
swallowed, so cache errors never surface in the envelope. -/
theorem cache_unreachable_fallthrough (s : Server) (raw : List (String × Val))
    (req : DatabaseRequest) (v : Val)
    (hp : parse_request raw = .ok req)
    (_hk : isTruthy req.cache_key = true)
    (hr : s.redis = .unreachable)
    (hroute : route_request s req = .ok v) :
    (receive_client_request s raw).1.status = "success" ∧
    (receive_client_request s raw).1.from_cache = some false ∧
    (receive_client_request s raw).1.data = some v := by
  have hnc : cache_hit s req = none := by
    unfold cache_hit
    rw [hr]
    simp [redisPresent, check_cache]
  simp only [receive_client_request, hp, hnc, hroute]
  exact ⟨rfl, rfl, rfl⟩

/-- Witness for C6: a sqlite read with cache_key "k" against an
unreachable cache returns the backend rows with from_cache false. -/
theorem cache_unreachable_fallthrough_witness :
    (receive_client_request (mkServer .unreachable [.obj [("a", .int 1)]])
        (sqliteReadRaw "k")).1.status = "success" ∧
    (receive_client_request (mkServer .unreachable [.obj [("a", .int 1)]])
        (sqliteReadRaw "k")).1.from_cache = some false ∧
    (receive_client_request (mkServer .unreachable [.obj [("a", .int 1)]])
        (sqliteReadRaw "k")).1.data = some (.list [.obj [("a", .int 1)]]) :=
  cache_unreachable_fallthrough (mkServer .unreachable [.obj [("a", .int 1)]])
    (sqliteReadRaw "k")
    ⟨"sqlite", .str "select", .str "SELECT * FROM t", .obj [], .str "k"⟩
    (.list [.obj [("a", .int 1)]]) rfl rfl rfl rfl

/-- C2 (amended): for a read request carrying a truthy string cache_key,
with a reachable cache holding no prior entry for that key and a backend
whose result is truthy (non-empty) and unchanged between the calls, the
first response has from_cache false and the second from_cache true, with
identical data in both.  (A falsy backend result is never cached, so
for it both calls return from_cache false — see the counterexample.) -/
theorem cache_idempotence_truthy
    (s : Server) (raw : List (String × Val)) (req : DatabaseRequest)
    (k : String) (st : List (String × Val)) (v : Val)
    (hp : parse_request raw = .ok req)
    (hkey : req.cache_key = .str k) (hk : k ≠ "")
    (hr : s.redis = .reachable st) (hcold : assocFind st k = none)
    (hroute : route_request s req = .ok v) (hv : isTruthy v = true) :
    (receive_client_request s raw).1.status = "success" ∧
    (receive_client_request s raw).1.from_cache = some false ∧
    (receive_client_request s raw).1.data = some v ∧
    (receive_client_request (receive_client_request s raw).2 raw).1.status
      = "success" ∧
    (receive_client_request (receive_client_request s raw).2 raw).1.from_cache
      = some true ∧
    (receive_client_request (receive_client_request s raw).2 raw).1.data
      = some v := by
  have hnc : cache_hit s req = none := by
    unfold cache_hit
    rw [hr, hkey]
    simp [redisPresent, check_cache, isTruthy, hcold, hk]
  have hfirst : receive_client_request s raw
      = (format_response s.fileMtime v false,
         { s with redis := .reachable (assocSet st k v) }) := by
    simp only [receive_client_request, hp, hnc, hroute]
    rw [hkey, hr, hv]
    simp [isTruthy, redisPresent, store_in_cache, hk]
  have hch2 : cache_hit { s with redis := .reachable (assocSet st k v) } req
      = some v := by
    unfold cache_hit
    rw [hkey]
    simp only [check_cache, redisPresent, assocFind_assocSet_self]
    rw [hv]
    simp [isTruthy, hk]
  refine ⟨?_, ?_, ?_, ?_, ?_, ?_⟩ <;> rw [hfirst]
  · rfl
  · rfl
  · rfl
  · simp only [receive_client_request, hp, hch2]
    rfl
  · simp only [receive_client_request, hp, hch2]
    rfl
  · simp only [receive_client_request, hp, hch2]
    rfl

/-- Witness for C2 (amended): a sqlite read returning one row, cache key
"k", reachable empty cache: first call from_cache false, second call
from_cache true, same data. -/
theorem cache_idempotence_truthy_witness :
    (receive_client_request (mkServer (.reachable []) [.obj [("a", .int 1)]])
        (sqliteReadRaw "k")).1.from_cache = some false ∧
    (receive_client_request (mkServer (.reachable []) [.obj [("a", .int 1)]])
        (sqliteReadRaw "k")).1.data = some (.list [.obj [("a", .int 1)]]) ∧
    (receive_client_request
        (receive_client_request (mkServer (.reachable []) [.obj [("a", .int 1)]])
          (sqliteReadRaw "k")).2
        (sqliteReadRaw "k")).1.from_cache = some true ∧
    (receive_client_request
        (receive_client_request (mkServer (.reachable []) [.obj [("a", .int 1)]])
          (sqliteReadRaw "k")).2
        (sqliteReadRaw "k")).1.data = some (.list [.obj [("a", .int 1)]]) := by
  have h := cache_idempotence_truthy
    (mkServer (.reachable []) [.obj [("a", .int 1)]]) (sqliteReadRaw "k")
    ⟨"sqlite", .str "select", .str "SELECT * FROM t", .obj [], .str "k"⟩
    "k" [] (.list [.obj [("a", .int 1)]])
    rfl rfl (by decide) rfl rfl rfl rfl
  exact ⟨h.2.1, h.2.2.1, h.2.2.2.2.1, h.2.2.2.2.2⟩

/-- C7 (amended): for the relational backends an operation equal to
"select" in any letter case is classified as a read (even when the query
field is null, since the query text is not consulted); for the document
store only the exact lower-case operation "find" runs a find against the
collection named in parameters.collection (default "default") — other
letter cases of "find" are rejected as unsupported (see the
counterexample). -/
theorem read_marker_classification
    (op : String) (cfg : Config) (libs : Libs) (db : DbConn) (w : MongoWorld)
    (req1 req2 : DatabaseRequest) (ps : List (String × Val))
    (hop1 : req1.operation = .str op) (hsel : strLower op = "select")
    (hsq : cfg.sqliteEnabled = true)
    (hpg : (libs.postgresqlAvailable && cfg.postgresqlEnabled) = true)
    (hrd : libs.realDictCursorAvailable = true)
    (hmy : (libs.mysqlAvailable && cfg.mysqlEnabled) = true)
    (hdrv : libs.mysqlDriverIsPymysql = true)
    (hc : db.connectFail = none) (he : db.execFail = none)
    (hop2 : req2.operation = .str "find") (hps : req2.parameters = .obj ps)
    (hmg : (libs.mongodbAvailable && cfg.mongodbEnabled) = true)
    (hwc : w.connectFail = none) :
    handle_sqlite cfg db req1 = .ok (.list db.rows) ∧
    handle_postgresql libs cfg db req1 = .ok (.list db.rows) ∧
    handle_mysql libs cfg db req1 = .ok (.list db.rows) ∧
    handle_mongodb libs cfg w req2
      = .ok (.list ((w.find (rawGet ps "collection" (.str "default"))
                            (rawGet ps "query" (.obj []))).map stringifyId)) := by
  have hrel : relationalIsRead req1.operation req1.query = .ok true := by
    rw [hop1]; simp [relationalIsRead, hsel]
  refine ⟨?_, ?_, ?_, ?_⟩
  · simp [handle_sqlite, hsq, hc, he, hrel]
  · simp [handle_postgresql, hpg, hrd, hc, he, hrel]
  · simp [handle_mysql, hmy, hdrv, hc, he, hrel]
  · simp [handle_mongodb, hmg, hwc, hop2, hps, valIsStr, paramsGet]

/-- Witness for C7 (amended): operation "SeLeCt" with a null query is a
relational read; operation "find" against collection "users" runs the
(empty) find. -/
theorem read_marker_classification_witness :
    handle_sqlite allOnConfig (okDb [])
        ⟨"sqlite", .str "SeLeCt", .null, .obj [], .null⟩ = .ok (.list []) ∧
    handle_mongodb allLibs allOnConfig okMongo
        ⟨"mongodb", .str "find", .null,
          .obj [("collection", .str "users")], .null⟩ = .ok (.list []) := by
  have h := read_marker_classification "SeLeCt" allOnConfig allLibs (okDb [])
    okMongo ⟨"sqlite", .str "SeLeCt", .null, .obj [], .null⟩
    ⟨"mongodb", .str "find", .null, .obj [("collection", .str "users")], .null⟩
    [("collection", .str "users")]
    rfl rfl rfl rfl rfl rfl rfl rfl rfl rfl rfl rfl rfl
  exact ⟨h.1, h.2.2.2⟩

/-- C8 (amended): the parsed parameters field is the raw "parameters"
value taken verbatim whenever the key is present (so a null raw value
stays null, not the empty mapping), and is the empty mapping exactly
when the key is absent — the behavior of `dict.get` with a mapping
default. -/
theorem parameters_parse_verbatim (raw : List (String × Val))
    (req : DatabaseRequest)
    (hp : parse_request raw = .ok req) :
    req.parameters = rawGet raw "parameters" (.obj []) := by
  unfold parse_request at hp
  split at hp
  · cases hp; rfl
  · exact Except.noConfusion hp

/-- Witness for C8 (amended): with "parameters" absent from the raw
mapping, the parsed field is the `dict.get` default, the empty
mapping. -/
theorem parameters_parse_verbatim_witness :
    (DatabaseRequest.mk "sqlite" (.str "") .null (.obj []) .null).parameters
      = rawGet [("db_type", Val.str "sqlite")] "parameters" (.obj []) :=
  parameters_parse_verbatim [("db_type", .str "sqlite")]
    ⟨"sqlite", .str "", .null, .obj [], .null⟩ rfl

/-- C9: with a string cache_key, a reachable cache whose entry for that
key is absent or falsy, and a backend whose (unchanging) result is falsy
(empty list/mapping or null), a cached falsy read is treated as a miss
and the falsy result is never written back, so every repetition of the
request returns status "success" with from_cache false and leaves the
server state — in particular the cache — unchanged. -/
theorem falsy_result_never_cached
    (s : Server) (raw : List (String × Val)) (req : DatabaseRequest)
    (k : String) (st : List (String × Val)) (v : Val)
    (hp : parse_request raw = .ok req)
    (hkey : req.cache_key = .str k)
    (hr : s.redis = .reachable st)
    (hfalsy : ∀ w, assocFind st k = some w → isTruthy w = false)
    (hroute : route_request s req = .ok v)
    (hv : isTruthy v = false) :
    ∀ n, (receive_iter raw n s).1.status = "success" ∧
         (receive_iter raw n s).1.from_cache = some false ∧
         (receive_iter raw n s).1.data = some v ∧
         (receive_iter raw n s).2 = s := by
  have hnc : cache_hit s req = none := by
    unfold cache_hit
    rw [hr, hkey]
    cases hfind : assocFind st k with
    | none => simp [check_cache, hfind]
    | some w => simp [check_cache, hfind, hfalsy w hfind]
  have hstep : receive_client_request s raw
      = (format_response s.fileMtime v false, s) := by
    simp only [receive_client_request, hp, hnc, hroute]
    simp [hv]
  intro n
  induction n with
  | zero =>
    have h0 : receive_iter raw 0 s = (format_response s.fileMtime v false, s) :=
      hstep
    rw [h0]
    exact ⟨rfl, rfl, rfl, rfl⟩
  | succ n ih =>
    have hit : receive_iter raw (n + 1) s = receive_iter raw n s := by
      show receive_iter raw n (receive_client_request s raw).2
        = receive_iter raw n s
      rw [hstep]
    rw [hit]
    exact ih

/-- Witness for C9: a sqlite read over an empty table (falsy result)
with cache key "k" and a reachable empty cache returns from_cache false
on the third repetition as well, with the server state unchanged. -/
theorem falsy_result_never_cached_witness :
    (receive_iter (sqliteReadRaw "k") 2 (mkServer (.reachable []) [])).1.status
      = "success" ∧
    (receive_iter (sqliteReadRaw "k") 2 (mkServer (.reachable []) [])).1.from_cache
      = some false ∧
    (receive_iter (sqliteReadRaw "k") 2 (mkServer (.reachable []) [])).1.data
      = some (.list []) ∧
    (receive_iter (sqliteReadRaw "k") 2 (mkServer (.reachable []) [])).2
      = mkServer (.reachable []) [] :=
  falsy_result_never_cached (mkServer (.reachable []) []) (sqliteReadRaw "k")
    ⟨"sqlite", .str "select", .str "SELECT * FROM t", .obj [], .str "k"⟩
    "k" [] (.list [])
    rfl rfl rfl (fun _ h => nomatch h) rfl rfl 2

end MCPDB
